import Mathlib

/-!
Verification of the HMI pixel-size notebook (`HMIpixelsize.ipynb`).

The notebook's reproducible logic is three lines of Python:

  dx   = (2*np.pi*meta['CDELT2']*6.955e8/360)
  area = np.power(dx,2)

followed by two `print` statements.  We embed this shallowly over the
real numbers: `dx` and `area` are pure functions of the coordinate
increment `CDELT2` and the solar-radius constant (the notebook inlines
the literal `6.955e8`; the specification abstracts it as a second
argument `solar_radius_m`, so our `dx` takes it as a parameter and
`rsun_ref` names the notebook's literal).  The metadata lookup
`meta['CDELT2']` can fail in Python with a `KeyError` when the keyword
is absent; `run` embeds that as `Except.error MissingMetadataKey`.  The
arithmetic itself is straight-line code with no `raise` and no
validation, so once the lookup succeeds `run` always returns `ok`.
-/

/-- The metadata keyword the notebook reads. -/
def cdelt2_key : String := "CDELT2"

/-- The solar-radius literal inlined in the notebook: `6.955e8` meters. -/
def rsun_ref : ℝ := 6.955e8

/-- Embedding of `dx = (2*np.pi*meta['CDELT2']*6.955e8/360)` with the
radius literal abstracted as `solar_radius_m`. -/
noncomputable def dx (cdelt_arcsec solar_radius_m : ℝ) : ℝ :=
  2 * Real.pi * cdelt_arcsec * solar_radius_m / 360

/-- Embedding of `area = np.power(dx,2)`. -/
noncomputable def area (cdelt_arcsec solar_radius_m : ℝ) : ℝ :=
  dx cdelt_arcsec solar_radius_m ^ 2

/-- The two derived scalars of one invocation. -/
structure PixelMetrics where
  pixel_size_m : ℝ
  pixel_area_m2 : ℝ

/-- Error taxonomy of the calling context: a missing header keyword
(Python `KeyError` on `meta['CDELT2']`) or an invalid argument (named by
the specification; the notebook's code never raises it). -/
inductive CalcError where
  | MissingMetadataKey
  | InvalidArgument
deriving DecidableEq

/-- The pure computation: both derived scalars from the two inputs. -/
noncomputable def compute (cdelt_arcsec solar_radius_m : ℝ) : PixelMetrics :=
  ⟨dx cdelt_arcsec solar_radius_m, area cdelt_arcsec solar_radius_m⟩

/-- End-to-end embedding of the notebook's code cells: look up `CDELT2`
in the header mapping (failing like Python's `KeyError` when absent) and
then run the straight-line arithmetic, which cannot fail. -/
noncomputable def run (meta : String → Option ℝ) : Except CalcError PixelMetrics :=
  match meta cdelt2_key with
  | none => Except.error CalcError.MissingMetadataKey
  | some c => Except.ok (compute c rsun_ref)

/-- The first `print`: `f'The HMI pixel size is {dx} meters.'`. -/
def sizeLine (s : String) : String :=
  "The HMI pixel size is " ++ s ++ " meters."

/-- The second `print`: `f'The HMI pixel area is {area} meters squared.'`. -/
def areaLine (s : String) : String :=
  "The HMI pixel area is " ++ s ++ " meters squared."

/-- The lines a successful run emits to standard output, parametrised by
the float-to-string rendering `fmt` of the Python f-string. -/
def outputLines (fmt : ℝ → String) (m : PixelMetrics) : List String :=
  [sizeLine (fmt m.pixel_size_m), areaLine (fmt m.pixel_area_m2)]

/-- C1: for every `cdelt_arcsec > 0` and `solar_radius_m > 0` the value
bound to `dx` equals the closed form `(2π·cdelt_arcsec/360)·solar_radius_m`. -/
theorem dx_closed_form (c r : ℝ) (_hc : 0 < c) (_hr : 0 < r) :
    dx c r = (2 * Real.pi * c / 360) * r := by
  unfold dx; ring

/-- Witness for C1 at `c = 1`, `r = 2`. -/
theorem dx_closed_form_witness : dx 1 2 = (2 * Real.pi * 1 / 360) * 2 :=
  dx_closed_form 1 2 (by norm_num) (by norm_num)

/-- C2: for every `cdelt_arcsec > 0` and `solar_radius_m > 0` the pixel
area equals the square of the pixel size, exactly, hence in particular
within relative tolerance `1e-9`. -/
theorem area_eq_size_sq (c r : ℝ) (_hc : 0 < c) (_hr : 0 < r) :
    area c r = dx c r ^ 2 ∧
    |area c r - dx c r ^ 2| ≤ 1e-9 * |dx c r ^ 2| := by
  have h : area c r = dx c r ^ 2 := rfl
  rw [h, sub_self, abs_zero]
  refine ⟨rfl, ?_⟩
  apply mul_nonneg
  · norm_num
  · exact abs_nonneg _

/-- Witness for C2 at `c = 1`, `r = 2`. -/
theorem area_eq_size_sq_witness :
    area 1 2 = dx 1 2 ^ 2 ∧ |area 1 2 - dx 1 2 ^ 2| ≤ 1e-9 * |dx 1 2 ^ 2| :=
  area_eq_size_sq 1 2 (by norm_num) (by norm_num)

/-- C3 counterexample: with `CDELT2 = -1` supplied, the notebook's code
does not produce any error (in particular not `InvalidArgument`); it
returns the computed metrics. -/
theorem run_neg_one_counterexample :
    (∀ e : CalcError,
      run (fun k => if k = cdelt2_key then some (-1) else none) ≠ Except.error e) ∧
    run (fun k => if k = cdelt2_key then some (-1) else none) =
      Except.ok (compute (-1) rsun_ref) := by
  constructor
  · intro e h
    simp [run] at h
  · simp [run]

/-- C3 amended: the notebook performs no input validation; at
`cdelt_arcsec = -1` the computation succeeds, yielding a negative pixel
size and a positive pixel area, rather than raising `InvalidArgument`. -/
theorem run_neg_one_no_validation :
    run (fun k => if k = cdelt2_key then some (-1) else none) =
      Except.ok (compute (-1) rsun_ref) ∧
    (compute (-1) rsun_ref).pixel_size_m < 0 ∧
    0 < (compute (-1) rsun_ref).pixel_area_m2 := by
  have hpi := Real.pi_pos
  refine ⟨by simp [run], ?_, ?_⟩
  · show dx (-1) rsun_ref < 0
    unfold dx rsun_ref
    nlinarith
  · show 0 < area (-1) rsun_ref
    have hneg : dx (-1) rsun_ref < 0 := by
      unfold dx rsun_ref
      nlinarith
    unfold area
    nlinarith

/-- C5: doubling the angular increment exactly doubles the pixel size,
and in particular the size at `cdelt_arcsec = 1` is exactly double the
size at `cdelt_arcsec = 0.5`, at the same radius. -/
theorem dx_scaling (c r : ℝ) (_hc : 0 < c) (_hr : 0 < r) :
    dx (2 * c) r = 2 * dx c r ∧ dx 1 r = 2 * dx 0.5 r := by
  constructor
  · unfold dx; ring
  · unfold dx; ring

/-- Witness for C5 at `c = 3`, `r = 7`. -/
theorem dx_scaling_witness :
    dx (2 * 3) 7 = 2 * dx 3 7 ∧ dx 1 7 = 2 * dx 0.5 7 :=
  dx_scaling 3 7 (by norm_num) (by norm_num)

/-- C6: at the boundary `cdelt_arcsec = 0` no error is raised and both
the pixel size and the pixel area are `0`. -/
theorem compute_zero_boundary (r : ℝ) (_hr : 0 < r) :
    (compute 0 r).pixel_size_m = 0 ∧ (compute 0 r).pixel_area_m2 = 0 ∧
    run (fun k => if k = cdelt2_key then some 0 else none) =
      Except.ok (compute 0 rsun_ref) := by
  refine ⟨?_, ?_, by simp [run]⟩
  · show dx 0 r = 0
    unfold dx; ring
  · show area 0 r = 0
    have h : dx 0 r = 0 := by unfold dx; ring
    unfold area
    rw [h]; ring

/-- Witness for C6 at `r = 1`. -/
theorem compute_zero_boundary_witness :
    (compute 0 1).pixel_size_m = 0 ∧ (compute 0 1).pixel_area_m2 = 0 ∧
    run (fun k => if k = cdelt2_key then some 0 else none) =
      Except.ok (compute 0 rsun_ref) :=
  compute_zero_boundary 1 (by norm_num)

/-- C7: the computation is deterministic: equal inputs give equal
outputs (it is a pure function of its two arguments). -/
theorem compute_deterministic (c1 r1 c2 r2 : ℝ) (hc : c1 = c2) (hr : r1 = r2) :
    compute c1 r1 = compute c2 r2 := by
  rw [hc, hr]

/-- Witness for C7 at `c = 1`, `r = 2` on both runs. -/
theorem compute_deterministic_witness : compute 1 2 = compute 1 2 :=
  compute_deterministic 1 2 1 2 rfl rfl

/-- C8: a successful computation emits exactly two lines, in the exact
formats of the two f-strings, and the embedding has no other effect. -/
theorem output_exact_lines (fmt : ℝ → String) (m : PixelMetrics) :
    outputLines fmt m =
      [ "The HMI pixel size is " ++ fmt m.pixel_size_m ++ " meters.",
        "The HMI pixel area is " ++ fmt m.pixel_area_m2 ++ " meters squared." ] ∧
    (outputLines fmt m).length = 2 :=
  ⟨rfl, rfl⟩

/-- C9: for every real `cdelt_arcsec` and `solar_radius_m` (negative
values included) the pixel area is nonnegative, being a square. -/
theorem area_nonneg (c r : ℝ) : 0 ≤ area c r := by
  unfold area
  positivity

/-- C10: at a fixed radius `r > 0` the pixel size is strictly increasing
in the angular increment. -/
theorem dx_strictMono (r c1 c2 : ℝ) (hr : 0 < r) (h : c1 < c2) :
    dx c1 r < dx c2 r := by
  unfold dx
  have hpi := Real.pi_pos
  nlinarith [mul_pos (mul_pos hpi hr) (sub_pos.mpr h)]

/-- Witness for C10 at `r = 1`, `c1 = 0`, `c2 = 1`. -/
theorem dx_strictMono_witness : dx 0 1 < dx 1 1 :=
  dx_strictMono 1 0 1 (by norm_num) (by norm_num)

/-- C4 counterexample: at `cdelt_arcsec = 0.5` and
`solar_radius_m = 6.955e8` the formula yields a pixel size between
`6069381` and `6069384` meters, more than a million meters away from the
claimed `364162.948`. -/
theorem dx_half_counterexample :
    6069381 < dx 0.5 6.955e8 ∧ dx 0.5 6.955e8 < 6069384 ∧
    1000000 < |dx 0.5 6.955e8 - 364162.948| := by
  have h1 := Real.pi_gt_d6
  have h2 := Real.pi_lt_d6
  have hlo : (6069381 : ℝ) < dx 0.5 6.955e8 := by
    unfold dx; nlinarith
  have hhi : dx 0.5 6.955e8 < 6069384 := by
    unfold dx; nlinarith
  refine ⟨hlo, hhi, ?_⟩
  have hnn : (0 : ℝ) ≤ dx 0.5 6.955e8 - 364162.948 := by linarith
  rw [abs_of_nonneg hnn]
  linarith

/-- C4 amended: the notebook's printed values `364162.948...` m and
`1.3261465...e11` m² correspond to `cdelt = 0.03` (the `CDELT2` of the
notebook's CEA data file, in degrees), not to `cdelt_arcsec = 0.5`:
`compute(0.03, 6.955e8)` gives `pixel_size_m ≈ 364162.948` and
`pixel_area_m2 ≈ 1.3261465e11`. -/
theorem dx_cdelt_003_values :
    |dx 0.03 6.955e8 - 364162.948| < 0.2 ∧
    |area 0.03 6.955e8 - 1.3261465e11| < 100000 := by
  have h1 := Real.pi_gt_d6
  have h2 := Real.pi_lt_d6
  have hlo : (364162.87 : ℝ) < dx 0.03 6.955e8 := by
    unfold dx; nlinarith
  have hhi : dx 0.03 6.955e8 < 364162.99 := by
    unfold dx; nlinarith
  have hpos : (0 : ℝ) < dx 0.03 6.955e8 := by linarith
  constructor
  · rw [abs_lt]
    constructor <;> linarith
  · have ha : area 0.03 6.955e8 = dx 0.03 6.955e8 ^ 2 := rfl
    rw [ha, abs_lt]
    constructor <;> nlinarith [hlo, hhi, hpos]
